import Mathlib

/-!
Verification development for the cost-optimized LLM routing gateway
(`src/router.py`, `src/cost_tracker.py`, `src/request_handler.py`, `app.py`).

The Python code is shallowly embedded: every stateful class becomes a
structure with explicit state passing, every method a pure function, and
Python floats are idealized as exact rationals (`ℚ`).  Calls to
`time.time()` / `datetime.now()` become explicit `now : ℚ` parameters.
Python exceptions become `Except String`.
-/

/-- Round-half-to-even on rationals; idealizes Python's `round` on floats
(which is round-half-to-even on the underlying binary value). -/
def roundHalfEven (q : ℚ) : ℤ :=
  let f := ⌊q⌋
  let r := q - f
  if r < 1/2 then f
  else if 1/2 < r then f + 1
  else if f % 2 = 0 then f else f + 1

/-- Python `round(q, ndigits)` on our rational idealization of floats. -/
def pyRound (ndigits : ℕ) (q : ℚ) : ℚ :=
  (roundHalfEven (q * 10 ^ ndigits) : ℚ) / 10 ^ ndigits

/-- `round(x, 4)` as used for durations and average latencies. -/
def round4 : ℚ → ℚ := pyRound 4

/-- `round(x, 6)` as used for costs. -/
def round6 : ℚ → ℚ := pyRound 6

/-- Python `l[-n:]`: the last `n` elements of a list (the whole list when it
is shorter than `n`). -/
def takeLast {α : Type} (n : ℕ) (l : List α) : List α :=
  l.drop (l.length - n)

/-- Lookup in an insertion-ordered dict (Python `d[n]` / `d.get(n)`). -/
def lookupD {α : Type} (l : List (String × α)) (n : String) : Option α :=
  match l with
  | [] => none
  | e :: t => if e.1 = n then some e.2 else lookupD t n

/-- Update the value stored under key `n` of an insertion-ordered dict,
leaving all other entries alone (Python in-place mutation of `d[n]`). -/
def updateEntry {α : Type} (l : List (String × α)) (n : String) (f : α → α) :
    List (String × α) :=
  l.map (fun e => if e.1 = n then (e.1, f e.2) else e)

/-! ## Circuit breaker (`src/router.py`, class `CircuitBreaker`) -/

/-- State of one `CircuitBreaker` instance.  The `state` field is the Python
string attribute, taking the values `"closed"`, `"open"`, `"half-open"`. -/
structure CircuitBreaker where
  threshold : ℕ
  cooldown : ℚ
  failure_timestamps : List ℚ
  state : String
  last_failure_time : ℚ
  half_open_attempts : ℕ
deriving DecidableEq, Repr

/-- `CircuitBreaker.__init__(threshold=3, cooldown=60)`. -/
def initCB : CircuitBreaker :=
  { threshold := 3
    cooldown := 60
    failure_timestamps := []
    state := "closed"
    last_failure_time := 0
    half_open_attempts := 0 }

/-- `CircuitBreaker.record_success`. -/
def recordSuccess (cb : CircuitBreaker) : CircuitBreaker :=
  { cb with failure_timestamps := [], state := "closed", half_open_attempts := 0 }

/-- `CircuitBreaker.record_failure`; `now` is the value of `time.time()`. -/
def recordFailure (now : ℚ) (cb : CircuitBreaker) : CircuitBreaker :=
  let ts := (cb.failure_timestamps ++ [now]).filter (fun t => decide (now - t < cb.cooldown))
  if cb.threshold ≤ ts.length then
    { cb with failure_timestamps := ts, state := "open", last_failure_time := now,
              half_open_attempts := 0 }
  else
    { cb with failure_timestamps := ts }

/-- `CircuitBreaker.can_attempt`; returns the boolean result together with
the mutated breaker (the lazy open → half-open transition and the half-open
attempt counter are the only mutations). -/
def canAttempt (now : ℚ) (cb : CircuitBreaker) : Bool × CircuitBreaker :=
  if cb.state = "closed" then (true, cb)
  else if cb.state = "open" then
    let time_remaining := cb.cooldown - (now - cb.last_failure_time)
    if time_remaining ≤ 0 then
      (true, { cb with state := "half-open", half_open_attempts := 0 })
    else
      (false, cb)
  else if cb.state = "half-open" then
    if cb.half_open_attempts < 1 then
      (true, { cb with half_open_attempts := cb.half_open_attempts + 1 })
    else
      (false, cb)
  else (true, cb)

/-! ## Usage ledger (`src/cost_tracker.py`, class `CostTracker`) -/

/-- One entry of `usage_history` (the `usage_data` dict built in
`record_usage`).  The ISO timestamp string produced by
`datetime.now().isoformat()` is external wall-clock formatting and is
omitted; no claim concerns it. -/
structure UsageRecord where
  provider : String
  prompt_tokens : ℚ
  completion_tokens : ℚ
  total_tokens : ℚ
  cost : ℚ
  success : Bool
  duration_seconds : ℚ
deriving DecidableEq, Repr

/-- The value found under the `"avg_latency"` key of a per-provider stats
dict: the key may be absent (before any `get_stats` call), hold a float, or
hold the string sentinel `"N/A"`. -/
inductive AvgLat where
  | absent
  | num (q : ℚ)
  | na
deriving DecidableEq, Repr

/-- One per-provider stats dict (`CostTracker.provider_stats[name]`). -/
structure ProviderStats where
  total_requests : ℕ
  successful_requests : ℕ
  failed_requests : ℕ
  total_prompt_tokens : ℚ
  total_completion_tokens : ℚ
  total_cost : ℚ
  total_latency : ℚ
  avg_latency : AvgLat
deriving DecidableEq, Repr

/-- The fresh stats dict created for a provider on its first record. -/
def emptyStats : ProviderStats :=
  { total_requests := 0
    successful_requests := 0
    failed_requests := 0
    total_prompt_tokens := 0
    total_completion_tokens := 0
    total_cost := 0
    total_latency := 0
    avg_latency := AvgLat.absent }

/-- The mutable state of a `CostTracker`.  Python dicts preserve insertion
order, so `provider_stats` is an insertion-ordered association list.  The
append to the on-disk usage log is external I/O whose failures are swallowed
(`except ... logger.error`), so it does not appear in the state. -/
structure CostTracker where
  usage_history : List UsageRecord
  provider_stats : List (String × ProviderStats)
deriving DecidableEq, Repr

/-- `CostTracker.__init__`. -/
def initTracker : CostTracker :=
  { usage_history := [], provider_stats := [] }

/-- The arguments of one `record_usage` call. -/
structure RecordArgs where
  provider_name : String
  prompt_tokens : ℚ
  completion_tokens : ℚ
  cost : ℚ
  success : Bool
  duration : ℚ
deriving DecidableEq, Repr

/-- The `usage_data` dict built from the arguments of a `record_usage`
call. -/
def mkUsageRecord (a : RecordArgs) : UsageRecord :=
  { provider := a.provider_name
    prompt_tokens := a.prompt_tokens
    completion_tokens := a.completion_tokens
    total_tokens := a.prompt_tokens + a.completion_tokens
    cost := a.cost
    success := a.success
    duration_seconds := round4 a.duration }

/-- `CostTracker.record_usage`. -/
def recordUsage (a : RecordArgs) (ct : CostTracker) : CostTracker :=
  let h := ct.usage_history ++ [mkUsageRecord a]
  let h := if 100 < h.length then h.drop 1 else h
  let ps :=
    if (lookupD ct.provider_stats a.provider_name).isSome then ct.provider_stats
    else ct.provider_stats ++ [(a.provider_name, emptyStats)]
  let ps := updateEntry ps a.provider_name (fun s =>
    let s := { s with total_requests := s.total_requests + 1 }
    if a.success then
      { s with successful_requests := s.successful_requests + 1
               total_prompt_tokens := s.total_prompt_tokens + a.prompt_tokens
               total_completion_tokens := s.total_completion_tokens + a.completion_tokens
               total_cost := s.total_cost + a.cost
               total_latency := s.total_latency + a.duration }
    else
      { s with failed_requests := s.failed_requests + 1 })
  { usage_history := h, provider_stats := ps }

/-- The in-place enrichment `get_stats` performs on each per-provider dict:
`provider_data["avg_latency"] = round(avg_latency, 4) if avg_latency else "N/A"`
where the local `avg_latency` is `total_latency / successful_requests` when
`successful_requests > 0` and `None` otherwise.  Note the Python truthiness
test: a `None` average AND a `0.0` average both produce the `"N/A"`
sentinel. -/
def enrich (s : ProviderStats) : ProviderStats :=
  let avg : Option ℚ :=
    if 0 < s.successful_requests then some (s.total_latency / s.successful_requests)
    else none
  { s with avg_latency :=
      match avg with
      | some q => if q ≠ 0 then AvgLat.num (round4 q) else AvgLat.na
      | none => AvgLat.na }

/-- The snapshot dict returned by `CostTracker.get_stats`. -/
structure StatsResult where
  total_cost : ℚ
  total_tokens : ℚ
  total_requests : ℕ
  providers : List (String × ProviderStats)
  recent_requests : List UsageRecord
deriving DecidableEq, Repr

/-- `CostTracker.get_stats`.  It loops over `provider_stats` writing the
`avg_latency` key into each entry in place, so it returns the snapshot
together with the mutated tracker (the returned `providers` map aliases the
mutated `provider_stats`). -/
def getStats (ct : CostTracker) : StatsResult × CostTracker :=
  let total_cost := (ct.provider_stats.map (fun e => e.2.total_cost)).sum
  let total_tokens :=
    (ct.provider_stats.map (fun e => e.2.total_prompt_tokens + e.2.total_completion_tokens)).sum
  let ps := ct.provider_stats.map (fun e => (e.1, enrich e.2))
  ({ total_cost := round6 total_cost
     total_tokens := total_tokens
     total_requests := (ct.provider_stats.map (fun e => e.2.total_requests)).sum
     providers := ps
     recent_requests := takeLast 10 ct.usage_history },
   { ct with provider_stats := ps })

/-- Fold a sequence of `record_usage` calls over a tracker state. -/
def applyRecords (l : List RecordArgs) (ct : CostTracker) : CostTracker :=
  l.foldl (fun c a => recordUsage a c) ct

/-! ## A small model of parsed JSON / Python values

The upstream adapters (`src/request_handler.py`) manipulate the parsed JSON
of the provider responses with Python subscription, `.get` and truthiness;
these are modelled below, raising (`Except.error`) exactly where Python
raises. -/

/-- A parsed JSON value (the result of `await response.json()`). -/
inductive JVal where
  | jnull
  | jbool (b : Bool)
  | jnum (q : ℚ)
  | jstr (s : String)
  | jarr (xs : List JVal)
  | jobj (fields : List (String × JVal))

/-- Python truthiness of a value (`if x:`). -/
def JVal.truthy : JVal → Bool
  | jnull => false
  | jbool b => b
  | jnum q => decide (q ≠ 0)
  | jstr s => decide (s ≠ "")
  | jarr xs => !xs.isEmpty
  | jobj fs => !fs.isEmpty

/-- Python `j[k]` for a string key: dict lookup, `KeyError` when the key is
missing, `TypeError` on a non-dict. -/
def jget (j : JVal) (k : String) : Except String JVal :=
  match j with
  | JVal.jobj fs =>
      match lookupD fs k with
      | some v => Except.ok v
      | none => Except.error ("KeyError: " ++ k)
  | _ => Except.error "TypeError: value is not subscriptable by a string"

/-- Python `j[n]` for an integer index: list indexing (`IndexError` out of
range); indexing a string yields the one-character string. -/
def jindex (j : JVal) (n : ℕ) : Except String JVal :=
  match j with
  | JVal.jarr xs =>
      match xs.get? n with
      | some v => Except.ok v
      | none => Except.error "IndexError: list index out of range"
  | JVal.jstr s =>
      match s.toList.get? n with
      | some c => Except.ok (JVal.jstr (String.mk [c]))
      | none => Except.error "IndexError: string index out of range"
  | _ => Except.error "TypeError: value is not indexable"

/-- Python `j.get(k, d)`: only dicts have `.get` (`AttributeError`
otherwise). -/
def jgetD (j : JVal) (k : String) (d : JVal) : Except String JVal :=
  match j with
  | JVal.jobj fs => Except.ok ((lookupD fs k).getD d)
  | _ => Except.error "AttributeError: value has no attribute get"

/-- Python `k in j` for a string `k`: key membership in a dict, element
membership in a list, substring test on a string. -/
def jin (k : String) (j : JVal) : Except String Bool :=
  match j with
  | JVal.jobj fs => Except.ok (fs.any (fun e => decide (e.1 = k)))
  | JVal.jarr xs =>
      Except.ok (xs.any (fun v => match v with | JVal.jstr s => decide (s = k) | _ => false))
  | JVal.jstr s => Except.ok (decide (1 < (s.splitOn k).length))
  | _ => Except.error "TypeError: argument is not a container"

/-- Use a JSON value as a number, as Python arithmetic does (`bool` counts
as an int; anything else raises `TypeError`). -/
def asNum (j : JVal) : Except String ℚ :=
  match j with
  | JVal.jnum q => Except.ok q
  | JVal.jbool b => Except.ok (if b then 1 else 0)
  | _ => Except.error "TypeError: value is not a number"

/-! ## Router (`src/router.py`, class `LLMRouter`) -/

/-- A provider descriptor as read from the YAML config; only the fields the
router consults are modelled (`endpoint`, `model`, `api_key`, `timeout`,
`max_retries` feed only the transport layer). -/
structure Provider where
  name : String
  type : String
  cost_per_1k_tokens : ℚ
  prompt_cost_per_1k_tokens : Option ℚ
  completion_cost_per_1k_tokens : Option ℚ
deriving DecidableEq, Repr

/-- `LLMRouter._calculate_cost`. -/
def calculateCost (p : Provider) (prompt_tokens completion_tokens : ℚ) : ℚ :=
  let prompt_cost_rate := p.prompt_cost_per_1k_tokens.getD p.cost_per_1k_tokens
  let completion_cost_rate := p.completion_cost_per_1k_tokens.getD p.cost_per_1k_tokens
  round6 ((prompt_tokens / 1000) * prompt_cost_rate
          + (completion_tokens / 1000) * completion_cost_rate)

/-- `LLMRouter._compute_dynamic_score`.  The result is `Except` because the
latency test `if avg_latency and avg_latency > 5` raises a `TypeError` when
the stats dict holds the string sentinel `"N/A"` (a non-empty string is
truthy, and Python cannot order `str` against `int`). -/
def computeDynamicScore (tracker : CostTracker) (cbs : List (String × CircuitBreaker))
    (now : ℚ) (p : Provider) : Except String ℚ :=
  let base_cost := p.cost_per_1k_tokens
  let stats := lookupD tracker.provider_stats p.name
  let total_requests := (stats.map (fun s => s.total_requests)).getD 0
  let failed_requests := (stats.map (fun s => s.failed_requests)).getD 0
  let failureFraction : ℚ :=
    if 0 < total_requests then (failed_requests : ℚ) / (total_requests : ℚ) else 0
  let cb := lookupD cbs p.name
  let recency_factor : ℚ :=
    match cb with
    | some c => if now - c.last_failure_time < 5 * 60 then 3/2 else 1
    | none => 1
  let avg_latency := (stats.map (fun s => s.avg_latency)).getD AvgLat.absent
  match avg_latency with
  | AvgLat.absent => Except.ok (base_cost * (1 + failureFraction * recency_factor) * 1)
  | AvgLat.num q =>
      let latency_factor : ℚ := if q ≠ 0 ∧ 5 < q then 6/5 else 1
      Except.ok (base_cost * (1 + failureFraction * recency_factor) * latency_factor)
  | AvgLat.na => Except.error "TypeError: str and int are not orderable"

/-- Insert one scored provider into an already sorted list, before the first
entry of strictly greater score: together with `sortByScore` this is a
stable ascending sort, modelling Python's stable `sorted(..., key=...)`. -/
def insertByScore (x : ℚ × Provider) : List (ℚ × Provider) → List (ℚ × Provider)
  | [] => [x]
  | y :: ys => if x.1 ≤ y.1 then x :: y :: ys else y :: insertByScore x ys

/-- Stable sort of the scored providers by ascending score. -/
def sortByScore (l : List (ℚ × Provider)) : List (ℚ × Provider) :=
  l.foldr insertByScore []

/-- `LLMRouter._get_sorted_providers`.  First pass: filter by
`cb.can_attempt()`, threading the breaker mutations; a provider with no
breaker in the map is kept (`if cb and not cb.can_attempt()`).  Second pass:
`sorted(available, key=self._compute_dynamic_score)`, which evaluates the
key on every element, so a scoring `TypeError` escapes. -/
def getSortedProviders (cfg : List Provider) (tracker : CostTracker)
    (cbs : List (String × CircuitBreaker)) (now : ℚ) :
    Except String (List Provider) × List (String × CircuitBreaker) :=
  let step := fun (acc : List Provider × List (String × CircuitBreaker)) (p : Provider) =>
    match lookupD acc.2 p.name with
    | some cb =>
        let r := canAttempt now cb
        ((if r.1 then acc.1 ++ [p] else acc.1), updateEntry acc.2 p.name (fun _ => r.2))
    | none => (acc.1 ++ [p], acc.2)
  let fr := cfg.foldl step ([], cbs)
  match fr.1.mapM (fun p => (computeDynamicScore tracker fr.2 now p).map (fun s => (s, p))) with
  | Except.error e => (Except.error e, fr.2)
  | Except.ok scored => (Except.ok ((sortByScore scored).map (fun sp => sp.2)), fr.2)

/-- The normalized response shape returned by every adapter:
`{text, prompt_tokens, completion_tokens, total_tokens}`.  `text` is kept as
a raw JSON value (the adapters perform no type check on it); token counts
are numeric (JSON numbers) wherever an adapter returns at all. -/
structure NormResp where
  text : JVal
  prompt_tokens : ℚ
  completion_tokens : ℚ
  total_tokens : ℚ

/-- The dict returned by a successful `LLMRouter.generate`. -/
structure GenResult where
  provider_used : String
  cost : ℚ
  prompt_tokens : ℚ
  completion_tokens : ℚ
  total_tokens : ℚ
  response : JVal

/-- The exceptions `LLMRouter.generate` can raise: the two terminal errors,
plus an escaping Python-level error (the scoring `TypeError`). -/
inductive GenError where
  | noProviders
  | allFailed (msg : String)
  | pyError (msg : String)
deriving DecidableEq, Repr

/-- Router state: the breaker map and the shared cost tracker. -/
structure RouterState where
  circuit_breakers : List (String × CircuitBreaker)
  cost_tracker : CostTracker
deriving DecidableEq, Repr

/-- The failover loop inside `LLMRouter.generate` (step 3 of the spec):
attempt each provider in ranked order; on success record the ledger entry,
close the breaker and return; on failure record a zeroed ledger entry,
record the breaker failure, collect the error message and move on.  The
upstream call is abstracted as the `oracle`; a response whose `"text"` key
is missing is already an `oracle` failure (`ValueError` in the code).  All
`time.time()` reads within the call are modelled at the single instant
`now`, so recorded durations are `now - now = 0`; no claim depends on
elapsed durations. -/
def attemptLoop (oracle : Provider → Except String NormResp) (now : ℚ) :
    List Provider → RouterState → List String → Except GenError GenResult × RouterState
  | [], st, errors =>
      (Except.error (GenError.allFailed (String.intercalate "; " errors)), st)
  | p :: rest, st, errors =>
      match oracle p with
      | Except.ok resp =>
          let cost := calculateCost p resp.prompt_tokens resp.completion_tokens
          let tracker := recordUsage
            { provider_name := p.name, prompt_tokens := resp.prompt_tokens,
              completion_tokens := resp.completion_tokens, cost := cost,
              success := true, duration := now - now } st.cost_tracker
          let cbs :=
            match lookupD st.circuit_breakers p.name with
            | some _ => updateEntry st.circuit_breakers p.name recordSuccess
            | none => st.circuit_breakers
          (Except.ok
            { provider_used := p.name, cost := cost,
              prompt_tokens := resp.prompt_tokens,
              completion_tokens := resp.completion_tokens,
              total_tokens := resp.total_tokens, response := resp.text },
           { circuit_breakers := cbs, cost_tracker := tracker })
      | Except.error e =>
          let tracker := recordUsage
            { provider_name := p.name, prompt_tokens := 0, completion_tokens := 0,
              cost := 0, success := false, duration := now - now } st.cost_tracker
          let cbs :=
            match lookupD st.circuit_breakers p.name with
            | some _ => updateEntry st.circuit_breakers p.name (recordFailure now)
            | none => st.circuit_breakers
          attemptLoop oracle now rest { circuit_breakers := cbs, cost_tracker := tracker }
            (errors ++ [p.name ++ " failed: " ++ e])

/-- `LLMRouter.generate`: rank the admissible providers (a scoring
`TypeError` escapes here), raise *no-providers-available* on an empty list,
and otherwise run the failover loop. -/
def generate (cfg : List Provider) (oracle : Provider → Except String NormResp)
    (now : ℚ) (st : RouterState) : Except GenError GenResult × RouterState :=
  match getSortedProviders cfg st.cost_tracker st.circuit_breakers now with
  | (Except.error e, cbs) =>
      (Except.error (GenError.pyError e), { st with circuit_breakers := cbs })
  | (Except.ok [], cbs) =>
      (Except.error GenError.noProviders, { st with circuit_breakers := cbs })
  | (Except.ok sorted, cbs) =>
      attemptLoop oracle now sorted { st with circuit_breakers := cbs } []

/-! ## Provider adapters (`src/request_handler.py`, class `RequestHandler`)

Each adapter is modelled at its parse/normalize step: the function below
receives the parsed JSON body of a 200 upstream response and produces the
normalized response dict, raising exactly where the Python parsing raises
(`KeyError` / `IndexError` / the explicit `raise` statements).  The HTTP
transport, the non-200 branch and the bounded retry loop are boundary
concerns: a transport error or exhausted retries surface as an adapter
failure. -/

/-- `RequestHandler._call_mistral`, response parsing:
`text = result["choices"][0]["message"]["content"]`, token counts from the
required `usage` fields. -/
def mistralParse (result : JVal) : Except String NormResp := do
  let choices ← jget result "choices"
  let c0 ← jindex choices 0
  let message ← jget c0 "message"
  let text ← jget message "content"
  let usage ← jget result "usage"
  let prompt_tokens ← asNum (← jget usage "prompt_tokens")
  let completion_tokens ← asNum (← jget usage "completion_tokens")
  let total_tokens ← asNum (← jget usage "total_tokens")
  pure { text := text, prompt_tokens := prompt_tokens,
         completion_tokens := completion_tokens, total_tokens := total_tokens }

/-- `RequestHandler._call_deepseek`, response parsing: like Mistral but the
token counts default to 0 via `.get`, and `total_tokens` is the sum. -/
def deepseekParse (result : JVal) : Except String NormResp := do
  let choices ← jget result "choices"
  let c0 ← jindex choices 0
  let message ← jget c0 "message"
  let text ← jget message "content"
  let usage ← jgetD result "usage" (JVal.jobj [])
  let prompt_tokens ← asNum (← jgetD usage "prompt_tokens" (JVal.jnum 0))
  let completion_tokens ← asNum (← jgetD usage "completion_tokens" (JVal.jnum 0))
  pure { text := text, prompt_tokens := prompt_tokens,
         completion_tokens := completion_tokens,
         total_tokens := prompt_tokens + completion_tokens }

/-- `RequestHandler._call_google_gemini`, response parsing: the
empty-candidates check, the defaulted drill-down to
`candidates[0].get("content", {}).get("parts", [{}])[0].get("text", "")`,
the explicit `if not text: raise`, and the defaulted token counts from
`usageMetadata`. -/
def geminiParse (result : JVal) : Except String NormResp := do
  let mem ← jin "candidates" result
  if !mem then
    Except.error "Empty response from Gemini API"
  else do
    let cands ← jget result "candidates"
    if !cands.truthy then
      Except.error "Empty response from Gemini API"
    else do
      let c0 ← jindex cands 0
      let content ← jgetD c0 "content" (JVal.jobj [])
      let parts ← jgetD content "parts" (JVal.jarr [JVal.jobj []])
      let p0 ← jindex parts 0
      let text ← jgetD p0 "text" (JVal.jstr "")
      if !text.truthy then
        Except.error "No text output in Gemini API response"
      else do
        let usage ← jgetD result "usageMetadata" (JVal.jobj [])
        let prompt_tokens ← asNum (← jgetD usage "promptTokenCount" (JVal.jnum 0))
        let completion_tokens ← asNum (← jgetD usage "candidatesTokenCount" (JVal.jnum 0))
        pure { text := text, prompt_tokens := prompt_tokens,
               completion_tokens := completion_tokens,
               total_tokens := prompt_tokens + completion_tokens }

/-! ## Theorems -/

/-- Helper simp fact: the breaker state strings are distinct. -/
lemma str_open_ne_closed : ("open" = "closed") = False := by simp

/-- Helper simp fact: the breaker state strings are distinct. -/
lemma str_halfopen_ne_closed : ("half-open" = "closed") = False := by simp

/-- Helper simp fact: the breaker state strings are distinct. -/
lemma str_halfopen_ne_open : ("half-open" = "open") = False := by simp

/-- A breaker driven to `open` by three failures at times 0, 1, 2. -/
def cbOpened : CircuitBreaker := recordFailure 2 (recordFailure 1 (recordFailure 0 initCB))

/-- The admission decision at time 62: the breaker lazily moves to
half-open and admits the probe. -/
def cbProbe : Bool × CircuitBreaker := canAttempt 62 cbOpened

/-- The breaker after the admitted probe fails at time 63. -/
def cbProbeFailed : CircuitBreaker := recordFailure 63 cbProbe.2

/-- C1.  The claim says a failed half-open probe transitions the breaker
back to `open` with `last_failure_time = now`, so later `can_attempt()`
calls are rejected for a fresh cooldown.  The code does neither:
`record_failure` prunes the pre-cooldown timestamps, so the single probe
failure stays below the threshold and the breaker remains in `"half-open"`
with the stale `last_failure_time` (2, not 63).  The very next
`can_attempt()` (here at time 64, inside the claimed fresh cooldown) admits
a second probe, and after it every `can_attempt()` returns false (shown at
time 200, long past any cooldown), with no time-based recovery. -/
theorem c1_half_open_probe_failure_not_reopened :
    cbOpened.state = "open" ∧ cbOpened.last_failure_time = 2 ∧
    cbProbe.1 = true ∧ cbProbe.2.state = "half-open" ∧
    cbProbeFailed.state = "half-open" ∧
    cbProbeFailed.last_failure_time = 2 ∧
    (canAttempt 64 cbProbeFailed).1 = true ∧
    (canAttempt 200 (canAttempt 64 cbProbeFailed).2).1 = false := by
  have h0 : recordFailure 0 initCB =
      { threshold := 3, cooldown := 60, failure_timestamps := [0], state := "closed",
        last_failure_time := 0, half_open_attempts := 0 } := by
    norm_num [recordFailure, initCB, List.filter_cons]
  have h1 : recordFailure 1 (recordFailure 0 initCB) =
      { threshold := 3, cooldown := 60, failure_timestamps := [0, 1], state := "closed",
        last_failure_time := 0, half_open_attempts := 0 } := by
    rw [h0]; norm_num [recordFailure, List.filter_cons]
  have h2 : cbOpened =
      { threshold := 3, cooldown := 60, failure_timestamps := [0, 1, 2], state := "open",
        last_failure_time := 2, half_open_attempts := 0 } := by
    rw [cbOpened, h1]; norm_num [recordFailure, List.filter_cons]
  have h3 : cbProbe =
      (true, { threshold := 3, cooldown := 60, failure_timestamps := [0, 1, 2],
               state := "half-open", last_failure_time := 2, half_open_attempts := 0 }) := by
    rw [cbProbe, h2]; norm_num [canAttempt, str_open_ne_closed]
  have h4 : cbProbeFailed =
      { threshold := 3, cooldown := 60, failure_timestamps := [63], state := "half-open",
        last_failure_time := 2, half_open_attempts := 0 } := by
    rw [cbProbeFailed, h3]; norm_num [recordFailure, List.filter_cons]
  have h5 : canAttempt 64
      { threshold := 3, cooldown := 60, failure_timestamps := [63], state := "half-open",
        last_failure_time := 2, half_open_attempts := 0 } =
      (true, { threshold := 3, cooldown := 60, failure_timestamps := [63],
               state := "half-open", last_failure_time := 2, half_open_attempts := 1 }) := by
    norm_num [canAttempt, str_halfopen_ne_closed, str_halfopen_ne_open]
  rw [h2, h3, h4, h5]
  norm_num [canAttempt, str_halfopen_ne_closed, str_halfopen_ne_open]

/-- A breaker after three `record_failure` calls at times `t1 ≤ t2 ≤ t3`. -/
def cbAfter3 (t1 t2 t3 : ℚ) : CircuitBreaker :=
  recordFailure t3 (recordFailure t2 (recordFailure t1 initCB))

/-- C3.  After `record_failure` has been called threshold (3) times with all
three timestamps inside one cooldown window (60 s), the breaker is `open`
with `last_failure_time` the third failure time; every `can_attempt()` at a
time `t` with `t - t3 < 60` returns false and leaves the breaker unchanged
(so arbitrarily many such calls all return false), and a `can_attempt()` at
any time `t'` with `t' - t3 ≥ 60` (the boundary included) returns true,
lazily transitioning to `half-open` with `half_open_attempts = 0`. -/
theorem c3_open_blocks_until_cooldown_then_half_open
    (t1 t2 t3 t t' : ℚ) (h12 : t1 ≤ t2) (h23 : t2 ≤ t3) (hw : t3 - t1 < 60)
    (ht : t - t3 < 60) (ht' : 60 ≤ t' - t3) :
    (cbAfter3 t1 t2 t3).state = "open" ∧
    (cbAfter3 t1 t2 t3).last_failure_time = t3 ∧
    canAttempt t (cbAfter3 t1 t2 t3) = (false, cbAfter3 t1 t2 t3) ∧
    (canAttempt t' (cbAfter3 t1 t2 t3)).1 = true ∧
    (canAttempt t' (cbAfter3 t1 t2 t3)).2.state = "half-open" ∧
    (canAttempt t' (cbAfter3 t1 t2 t3)).2.half_open_attempts = 0 := by
  have e : cbAfter3 t1 t2 t3 =
      { threshold := 3, cooldown := 60, failure_timestamps := [t1, t2, t3], state := "open",
        last_failure_time := t3, half_open_attempts := 0 } := by
    simp [cbAfter3, recordFailure, initCB, List.filter_cons,
      decide_eq_true (show t1 - t1 < 60 by linarith),
      decide_eq_true (show t2 - t1 < 60 by linarith),
      decide_eq_true (show t2 - t2 < 60 by linarith),
      decide_eq_true (show t3 - t1 < 60 by linarith),
      decide_eq_true (show t3 - t2 < 60 by linarith),
      decide_eq_true (show t3 - t3 < 60 by linarith)]
  refine ⟨by rw [e], by rw [e], ?_, ?_, ?_, ?_⟩
  · rw [e]
    simp [canAttempt, str_open_ne_closed,
      eq_false (show ¬((60 : ℚ) - (t - t3) ≤ 0) from by linarith)]
  · rw [e]
    simp [canAttempt, str_open_ne_closed,
      eq_true (show ((60 : ℚ) - (t' - t3) ≤ 0) from by linarith)]
  · rw [e]
    simp [canAttempt, str_open_ne_closed,
      eq_true (show ((60 : ℚ) - (t' - t3) ≤ 0) from by linarith)]
  · rw [e]
    simp [canAttempt, str_open_ne_closed,
      eq_true (show ((60 : ℚ) - (t' - t3) ≤ 0) from by linarith)]

/-- Witness for C3: failures at times 0, 1, 2; blocked at time 30, admitted
at time 62. -/
theorem c3_open_blocks_until_cooldown_then_half_open_witness :
    (cbAfter3 0 1 2).state = "open" ∧
    (cbAfter3 0 1 2).last_failure_time = 2 ∧
    canAttempt 30 (cbAfter3 0 1 2) = (false, cbAfter3 0 1 2) ∧
    (canAttempt 62 (cbAfter3 0 1 2)).1 = true ∧
    (canAttempt 62 (cbAfter3 0 1 2)).2.state = "half-open" ∧
    (canAttempt 62 (cbAfter3 0 1 2)).2.half_open_attempts = 0 :=
  c3_open_blocks_until_cooldown_then_half_open 0 1 2 30 62
    (by norm_num) (by norm_num) (by norm_num) (by norm_num) (by norm_num)

/-- The four accumulators of one provider, read from the stats map with
Python-dict semantics (a missing provider reads as all-zero). -/
def providerAccs (ct : CostTracker) (n : String) : ℚ × ℚ × ℚ × ℚ :=
  match lookupD ct.provider_stats n with
  | some s => (s.total_cost, s.total_prompt_tokens, s.total_completion_tokens, s.total_latency)
  | none => (0, 0, 0, 0)

/-- The counter invariant of the ledger's per-provider stats. -/
def StatsInv (ct : CostTracker) : Prop :=
  ∀ e ∈ ct.provider_stats, e.2.total_requests = e.2.successful_requests + e.2.failed_requests

/-- Looking up an updated dict: the updated key reads through `f`, all
other keys are untouched. -/
lemma lookupD_updateEntry {α : Type} (l : List (String × α)) (n m : String) (f : α → α) :
    lookupD (updateEntry l n f) m =
      if m = n then (lookupD l m).map f else lookupD l m := by
  induction l with
  | nil => simp [updateEntry, lookupD]
  | cons e t ih =>
    obtain ⟨k, v⟩ := e
    simp only [updateEntry, List.map_cons] at ih ⊢
    by_cases h1 : k = n
    · subst h1
      by_cases h2 : m = k
      · subst h2
        simp [lookupD, ih]
      · have h2' : (k = m) = False := eq_false (fun h => h2 h.symm)
        simp [lookupD, h2, h2', ih]
    · by_cases h2 : m = k
      · subst h2
        have h1' : (m = n) = False := eq_false h1
        simp [lookupD, h1, h1', ih]
      · have h2' : (k = m) = False := eq_false (fun h => h2 h.symm)
        simp [lookupD, h1, h2', ih]

/-- Looking up a dict extended with one fresh entry at the end. -/
lemma lookupD_append_single {α : Type} (l : List (String × α)) (n m : String) (v : α) :
    lookupD (l ++ [(n, v)]) m =
      match lookupD l m with
      | some x => some x
      | none => if n = m then some v else none := by
  induction l with
  | nil => simp [lookupD]
  | cons e t ih =>
    by_cases h : e.1 = m
    · simp [lookupD, h]
    · simp [lookupD, h, ih]

/-- A pointwise property of dict values survives `updateEntry` when `f`
preserves it. -/
lemma forall_updateEntry {α : Type} (P : α → Prop) (l : List (String × α)) (n : String)
    (f : α → α) (h : ∀ e ∈ l, P e.2) (hf : ∀ s, P s → P (f s)) :
    ∀ e ∈ updateEntry l n f, P e.2 := by
  intro e he
  simp only [updateEntry, List.mem_map] at he
  obtain ⟨e0, he0, rfl⟩ := he
  by_cases h1 : e0.1 = n
  · simpa [h1] using hf _ (h e0 he0)
  · simpa [h1] using h e0 he0

/-- One `record_usage` call preserves the counter invariant. -/
lemma statsInv_record (a : RecordArgs) (ct : CostTracker) (h : StatsInv ct) :
    StatsInv (recordUsage a ct) := by
  have hbase : ∀ e ∈ (if (lookupD ct.provider_stats a.provider_name).isSome
      then ct.provider_stats else ct.provider_stats ++ [(a.provider_name, emptyStats)]),
      e.2.total_requests = e.2.successful_requests + e.2.failed_requests := by
    split
    · exact h
    · intro e he
      rcases List.mem_append.1 he with h1 | h1
      · exact h e h1
      · simp only [List.mem_singleton] at h1
        subst h1
        rfl
  intro e he
  simp only [recordUsage] at he
  refine forall_updateEntry
    (fun s => s.total_requests = s.successful_requests + s.failed_requests)
    _ _ _ hbase ?_ e he
  intro s hs
  cases hsucc : a.success <;> simp [hsucc] <;> omega

/-- Any sequence of `record_usage` calls preserves the counter invariant. -/
lemma statsInv_applyRecords (l : List RecordArgs) (ct : CostTracker) (h : StatsInv ct) :
    StatsInv (applyRecords l ct) := by
  induction l generalizing ct with
  | nil => exact h
  | cons a t ih => exact ih (recordUsage a ct) (statsInv_record a ct h)

/-- C4.  After every sequence of `record_usage` calls starting from a fresh
tracker, every provider entry satisfies
`total_requests = successful_requests + failed_requests`; and a
`record_usage` call with `success = false` leaves the `total_cost`,
`total_prompt_tokens`, `total_completion_tokens` and `total_latency`
accumulators of every provider unchanged, whatever cost, token and duration
arguments were passed. -/
theorem c4_ledger_invariant_and_failed_record_frame
    (l : List RecordArgs) (a : RecordArgs) (ct : CostTracker) (n : String)
    (hfail : a.success = false) :
    (∀ e ∈ (applyRecords l initTracker).provider_stats,
        e.2.total_requests = e.2.successful_requests + e.2.failed_requests) ∧
    providerAccs (recordUsage a ct) n = providerAccs ct n := by
  constructor
  · exact statsInv_applyRecords l initTracker (by intro e he; simp [initTracker] at he)
  · simp only [providerAccs, recordUsage, lookupD_updateEntry]
    by_cases hn : n = a.provider_name
    · subst hn
      rw [if_pos rfl]
      by_cases hs : (lookupD ct.provider_stats a.provider_name).isSome
      · rw [if_pos hs]
        obtain ⟨s, hl⟩ := Option.isSome_iff_exists.1 hs
        simp [hl, hfail]
      · rw [if_neg hs]
        rw [lookupD_append_single]
        have hnone : lookupD ct.provider_stats a.provider_name = none :=
          Option.not_isSome_iff_eq_none.1 hs
        simp [hnone, hfail, emptyStats]
    · rw [if_neg hn]
      by_cases hs : (lookupD ct.provider_stats a.provider_name).isSome
      · rw [if_pos hs]
      · rw [if_neg hs, lookupD_append_single]
        cases hl : lookupD ct.provider_stats n with
        | some s => simp [hl]
        | none =>
            simp only [hl]
            rw [if_neg (fun hh => hn hh.symm)]

/-- A one-success tracker used to witness C4. -/
def c4Tracker : CostTracker :=
  recordUsage { provider_name := "a", prompt_tokens := 1, completion_tokens := 2,
                cost := 3, success := true, duration := 4 } initTracker

/-- Witness for C4 at a concrete failed record. -/
theorem c4_ledger_invariant_and_failed_record_frame_witness :
    ({ provider_name := "a", prompt_tokens := 5, completion_tokens := 6, cost := 7,
       success := false, duration := 8 } : RecordArgs).success = false ∧
    providerAccs (recordUsage
        { provider_name := "a", prompt_tokens := 5, completion_tokens := 6, cost := 7,
          success := false, duration := 8 } c4Tracker) "a" =
      providerAccs c4Tracker "a" :=
  ⟨rfl, (c4_ledger_invariant_and_failed_record_frame [] _ c4Tracker "a" rfl).2⟩

/-- `takeLast 100` of a list that already fits is the list itself. -/
lemma takeLast_eq_self (l : List UsageRecord) (h : l.length ≤ 100) : takeLast 100 l = l := by
  unfold takeLast
  have : l.length - 100 = 0 := by omega
  rw [this, List.drop_zero]

/-- Length of the last-100 slice. -/
lemma takeLast_len (l : List UsageRecord) : (takeLast 100 l).length = l.length - (l.length - 100) := by
  unfold takeLast
  rw [List.length_drop]

/-- One append-then-evict step of `record_usage` keeps the history equal to
the last 100 of everything recorded so far. -/
lemma histStep (pre : List UsageRecord) (r : UsageRecord) :
    takeLast 100 (pre ++ [r]) =
      (if 100 < (takeLast 100 pre ++ [r]).length then (takeLast 100 pre ++ [r]).drop 1
       else takeLast 100 pre ++ [r]) := by
  by_cases hlen : pre.length < 100
  · rw [takeLast_eq_self pre (by omega)]
    rw [if_neg (by simp only [List.length_append, List.length_singleton]; omega)]
    exact takeLast_eq_self _ (by simp only [List.length_append, List.length_singleton]; omega)
  · have hlen1 : (takeLast 100 pre).length = 100 := by rw [takeLast_len]; omega
    rw [if_pos (by rw [List.length_append, hlen1]; simp)]
    rw [List.drop_append_of_le_length
      (show 1 ≤ (takeLast 100 pre).length by rw [hlen1]; norm_num)]
    unfold takeLast
    rw [List.drop_drop]
    rw [List.drop_append_of_le_length
      (show (pre ++ [r]).length - 100 ≤ pre.length by
        simp only [List.length_append, List.length_singleton]; omega)]
    congr 2
    simp only [List.length_append, List.length_singleton]
    omega

/-- The recent-history buffer is always the last 100 of all records made
so far, in insertion order. -/
lemma history_applyRecords (l : List RecordArgs) (pre : List UsageRecord) (ct : CostTracker)
    (h : ct.usage_history = takeLast 100 pre) :
    (applyRecords l ct).usage_history = takeLast 100 (pre ++ l.map mkUsageRecord) := by
  induction l generalizing pre ct with
  | nil => simpa using h
  | cons a t ih =>
    have hstep : (recordUsage a ct).usage_history =
        takeLast 100 (pre ++ [mkUsageRecord a]) := by
      simp only [recordUsage]
      rw [h, histStep]
    have h2 := ih (pre ++ [mkUsageRecord a]) (recordUsage a ct) hstep
    have h3 : applyRecords (a :: t) ct = applyRecords t (recordUsage a ct) := by
      simp [applyRecords]
    rw [h3, h2]
    simp [List.append_assoc]

/-- C5.  After every sequence of `record_usage` calls on a fresh tracker:
the recent-history buffer equals the last 100 usage records in insertion
order (hence, after N >= 100 records, exactly the last 100), its length
never exceeds 100, and the `recent_requests` field of `get_stats()` equals
the last 10 usage records in insertion order. -/
theorem c5_history_capped_and_recent_last_ten (l : List RecordArgs) :
    (applyRecords l initTracker).usage_history = takeLast 100 (l.map mkUsageRecord) ∧
    (applyRecords l initTracker).usage_history.length ≤ 100 ∧
    (getStats (applyRecords l initTracker)).1.recent_requests =
      takeLast 10 (l.map mkUsageRecord) := by
  have h := history_applyRecords l [] initTracker (by simp [initTracker, takeLast])
  simp only [List.nil_append] at h
  refine ⟨h, ?_, ?_⟩
  · rw [h]
    unfold takeLast
    rw [List.length_drop]
    omega
  · have hr : (getStats (applyRecords l initTracker)).1.recent_requests =
        takeLast 10 (applyRecords l initTracker).usage_history := rfl
    rw [hr, h]
    unfold takeLast
    rw [List.drop_drop, List.length_drop]
    congr 1
    omega

/-- Looking up the enriched providers map of `get_stats`. -/
lemma lookupD_map_enrich (l : List (String × ProviderStats)) (n : String) :
    lookupD (l.map (fun e => (e.1, enrich e.2))) n = (lookupD l n).map enrich := by
  induction l with
  | nil => simp [lookupD]
  | cons e t ih => by_cases h : e.1 = n <;> simp [lookupD, h, ih]

/-- A tracker holding one successful attempt recorded with duration 0. -/
def c7Tracker : CostTracker :=
  recordUsage { provider_name := "a", prompt_tokens := 0, completion_tokens := 0,
                cost := 0, success := true, duration := 0 } initTracker

/-- C7, counterexample.  The claim says the sentinel "N/A" appears exactly
when the provider has no successful requests.  Here the provider has one
successful request (of duration 0), yet `stats()` stores "N/A" instead of
the claimed `round(avg_latency, 4)` = 0.0: the code guards with Python
truthiness (`if avg_latency`), which confuses a 0.0 average with `None`. -/
theorem c7_na_despite_success :
    (lookupD (getStats c7Tracker).1.providers "a").map (fun s => s.successful_requests) =
      some 1 ∧
    (lookupD (getStats c7Tracker).1.providers "a").map (fun s => s.avg_latency) =
      some AvgLat.na ∧
    AvgLat.na ≠ AvgLat.num (round4 (0 / 1)) := by
  refine ⟨?_, ?_, by simp⟩ <;>
    norm_num [c7Tracker, getStats, recordUsage, initTracker, lookupD, updateEntry,
      mkUsageRecord, emptyStats, enrich, round4, pyRound, roundHalfEven]

/-- C7, amended.  In the `stats()` snapshot, a provider entry carries
`avg_latency = round(total_latency / successful_requests, 4)` whenever
`successful_requests > 0` AND `total_latency ≠ 0`, and the sentinel "N/A"
exactly when `successful_requests = 0` or `total_latency = 0` (the Python
truthiness test maps a 0.0 average to the sentinel as well). -/
theorem c7_avg_latency_field (ct : CostTracker) (n : String) (s : ProviderStats)
    (h : lookupD ct.provider_stats n = some s) :
    lookupD (getStats ct).1.providers n = some (enrich s) ∧
    (0 < s.successful_requests → s.total_latency ≠ 0 →
      (enrich s).avg_latency =
        AvgLat.num (round4 (s.total_latency / (s.successful_requests : ℚ)))) ∧
    ((s.successful_requests = 0 ∨ s.total_latency = 0) →
      (enrich s).avg_latency = AvgLat.na) := by
  refine ⟨?_, ?_, ?_⟩
  · have : (getStats ct).1.providers = ct.provider_stats.map (fun e => (e.1, enrich e.2)) := rfl
    rw [this, lookupD_map_enrich, h]; rfl
  · intro hs hl
    have hq : s.total_latency / (s.successful_requests : ℚ) ≠ 0 := by
      rw [div_ne_zero_iff]
      exact ⟨hl, Nat.cast_ne_zero.2 (by omega)⟩
    simp [enrich, hs, hq]
  · intro hcase
    rcases hcase with h0 | h0
    · simp [enrich, h0]
    · by_cases hs : 0 < s.successful_requests
      · simp [enrich, hs, h0]
      · simp [enrich, hs]
/-- A tracker holding one successful attempt with duration 6, for the C7
witness. -/
def c7wTracker : CostTracker :=
  recordUsage { provider_name := "a", prompt_tokens := 1, completion_tokens := 2,
                cost := 3, success := true, duration := 6 } initTracker

/-- The stats entry `c7wTracker` holds for provider \"a\". -/
def c7wStats : ProviderStats :=
  { total_requests := 1, successful_requests := 1, failed_requests := 0,
    total_prompt_tokens := 1, total_completion_tokens := 2, total_cost := 3,
    total_latency := 6, avg_latency := AvgLat.absent }

/-- Witness for C7 at the one-success tracker. -/
theorem c7_avg_latency_field_witness :
    lookupD (getStats c7wTracker).1.providers "a" = some (enrich c7wStats) ∧
    (0 < c7wStats.successful_requests → c7wStats.total_latency ≠ 0 →
      (enrich c7wStats).avg_latency =
        AvgLat.num (round4 (c7wStats.total_latency / (c7wStats.successful_requests : ℚ)))) ∧
    ((c7wStats.successful_requests = 0 ∨ c7wStats.total_latency = 0) →
      (enrich c7wStats).avg_latency = AvgLat.na) :=
  c7_avg_latency_field c7wTracker "a" c7wStats
    (by norm_num [c7wTracker, recordUsage, initTracker, lookupD, updateEntry, emptyStats,
      c7wStats])

/-- A fresh tracker after exactly one recorded attempt, which failed. -/
def c2Tracker : CostTracker :=
  recordUsage { provider_name := "a", prompt_tokens := 0, completion_tokens := 0,
                cost := 0, success := false, duration := 0 } initTracker

/-- A provider costing 1 per 1k tokens. -/
def c2Provider : Provider :=
  { name := "a", type := "mistral", cost_per_1k_tokens := 1,
    prompt_cost_per_1k_tokens := none, completion_cost_per_1k_tokens := none }

/-- A fresh breaker after one `record_failure` at time 900: below the
threshold, so `last_failure_time` keeps its initial value 0. -/
def c2Breaker : CircuitBreaker := recordFailure 900 initCB

/-- C2, counterexample.  One recorded attempt, failed at time 900, scored
at time 905 (5 s later, well inside the 300 s recency window of the claim):
the dynamic score is `cost * 2`, not the claimed `cost * 2.5`.  A single
failure never updates `last_failure_time` (`record_failure` stamps it only
when the threshold is reached), so the recency test compares `now` against
the initial value 0 and yields factor 1.0. -/
theorem c2_single_failure_score_not_2_5 :
    computeDynamicScore c2Tracker [("a", c2Breaker)] 905 c2Provider = Except.ok 2 ∧
    (2 : ℚ) ≠ c2Provider.cost_per_1k_tokens * (5 / 2) := by
  constructor
  · norm_num [computeDynamicScore, c2Tracker, c2Provider, c2Breaker, recordUsage,
      recordFailure, initCB, initTracker, lookupD, updateEntry, emptyStats,
      List.filter_cons]
  · norm_num [c2Provider]

/-- C2, amended.  For a provider with exactly one recorded attempt, which
failed, whose breaker saw fewer failures than the threshold (so
`last_failure_time` still holds its initial value 0), the dynamic score at
any time `now ≥ 300` is `cost_per_1k_tokens * 2.0`: fail_ratio = 1.0,
recency_factor = 1.0 (not 1.5), latency_factor = 1.0. -/
theorem c2_single_failure_score_doubles (p : Provider) (ct : CostTracker) (cbs : List (String × CircuitBreaker))
    (s : ProviderStats) (cb : CircuitBreaker) (now : ℚ)
    (hs : lookupD ct.provider_stats p.name = some s)
    (h1 : s.total_requests = 1) (h2 : s.failed_requests = 1)
    (h3 : s.avg_latency = AvgLat.absent)
    (hcb : lookupD cbs p.name = some cb) (hlft : cb.last_failure_time = 0)
    (hnow : 300 ≤ now) :
    computeDynamicScore ct cbs now p = Except.ok (p.cost_per_1k_tokens * 2) := by
  simp only [computeDynamicScore, hs, hcb, Option.map_some', Option.getD_some]
  rw [h1, h2, h3, hlft]
  rw [if_pos (by norm_num), if_neg (by linarith)]
  norm_num
/-- The stats entry `c2Tracker` holds for provider \"a\". -/
def c2Stats : ProviderStats :=
  { total_requests := 1, successful_requests := 0, failed_requests := 1,
    total_prompt_tokens := 0, total_completion_tokens := 0, total_cost := 0,
    total_latency := 0, avg_latency := AvgLat.absent }

/-- Witness for C2 at the concrete one-failure state. -/
theorem c2_single_failure_score_doubles_witness :
    computeDynamicScore c2Tracker [("a", c2Breaker)] 905 c2Provider =
      Except.ok (c2Provider.cost_per_1k_tokens * 2) :=
  c2_single_failure_score_doubles c2Provider c2Tracker [("a", c2Breaker)] c2Stats c2Breaker 905
    (by norm_num [c2Tracker, c2Provider, c2Stats, recordUsage, initTracker, lookupD,
      updateEntry, emptyStats])
    rfl rfl rfl
    (by norm_num [lookupD, c2Provider])
    (by norm_num [c2Breaker, recordFailure, initCB, List.filter_cons])
    (by norm_num)

/-- A provider costing 1 per 1k tokens, for C6. -/
def c6Provider : Provider :=
  { name := "a", type := "mistral", cost_per_1k_tokens := 1,
    prompt_cost_per_1k_tokens := none, completion_cost_per_1k_tokens := none }

/-- A tracker with one failed attempt for provider \"a\". -/
def c6FailTracker : CostTracker :=
  recordUsage { provider_name := "a", prompt_tokens := 0, completion_tokens := 0,
                cost := 0, success := false, duration := 0 } initTracker

/-- A tracker with one successful attempt of duration 10 s (a true average
latency of 10 s > 5 s), on which `get_stats()` has NOT been called. -/
def c6SlowTracker : CostTracker :=
  recordUsage { provider_name := "a", prompt_tokens := 3, completion_tokens := 3,
                cost := 0, success := true, duration := 10 } initTracker

/-- C6.  Two refutations of the claim.  (1) After one failed attempt and a
`stats()` call, the provider entry holds the string sentinel "N/A"; the
latency test `if avg_latency and avg_latency > 5` then raises a `TypeError`
(a non-empty string is truthy and Python cannot order `str` against `int`),
so computing the score fails.  (2) Before any `stats()` call the
`avg_latency` key is absent, so a provider whose true average latency is
10 s (> 5 s, with a successful request) still gets latency_factor 1.0: the
score is `cost = 1`, not the claimed `cost * 1.2`. -/
theorem c6_latency_factor_wrong_and_score_raises :
    computeDynamicScore (getStats c6FailTracker).2 [("a", initCB)] 1000 c6Provider =
      Except.error "TypeError: str and int are not orderable" ∧
    computeDynamicScore c6SlowTracker [("a", initCB)] 1000 c6Provider = Except.ok 1 ∧
    (1 : ℚ) ≠ 1 * (6 / 5) := by
  refine ⟨?_, ?_, by norm_num⟩ <;>
    norm_num [computeDynamicScore, getStats, enrich, c6FailTracker, c6SlowTracker,
      recordUsage, initTracker, lookupD, updateEntry, emptyStats, initCB, c6Provider]

/-- A tracker with one successful attempt of duration 10 s for provider
\"a\". -/
def c10Tracker : CostTracker :=
  recordUsage { provider_name := "a", prompt_tokens := 10, completion_tokens := 5,
                cost := 1/100, success := true, duration := 10 } initTracker

/-- Provider \"a\", statically the cheaper one (cost 1). -/
def c10ProvA : Provider :=
  { name := "a", type := "mistral", cost_per_1k_tokens := 1,
    prompt_cost_per_1k_tokens := none, completion_cost_per_1k_tokens := none }

/-- Provider \"b\", statically more expensive (cost 1.1). -/
def c10ProvB : Provider :=
  { name := "b", type := "deepseek", cost_per_1k_tokens := 11/10,
    prompt_cost_per_1k_tokens := none, completion_cost_per_1k_tokens := none }

/-- Fresh breakers for both providers. -/
def c10CBs : List (String × CircuitBreaker) := [("a", initCB), ("b", initCB)]

/-- Helper simp fact: provider names are distinct. -/
lemma str_a_ne_b : ("a" = "b") = False := by simp

/-- Helper simp fact: provider names are distinct. -/
lemma str_b_ne_a : ("b" = "a") = False := by simp

/-- C10.  `get_stats()` writes the `avg_latency` key into the shared
per-provider stats map, and the dynamic score reads that key: before any
`stats()` call provider \"a\" (one success, duration 10 s) has no
`avg_latency` entry and scores 1; after `stats()` the entry holds 10.0 and
the same provider scores 1.2.  Consequently the ranking flips: before the
call the order is [a, b] (1 < 1.1), after it the order is [b, a]
(1.1 < 1.2). -/
theorem c10_stats_call_changes_score_and_ranking :
    (lookupD c10Tracker.provider_stats "a").map (fun s => s.avg_latency) =
      some AvgLat.absent ∧
    (lookupD (getStats c10Tracker).2.provider_stats "a").map (fun s => s.avg_latency) =
      some (AvgLat.num 10) ∧
    computeDynamicScore c10Tracker c10CBs 1000 c10ProvA = Except.ok 1 ∧
    computeDynamicScore (getStats c10Tracker).2 c10CBs 1000 c10ProvA =
      Except.ok (6/5) ∧
    (getSortedProviders [c10ProvA, c10ProvB] c10Tracker c10CBs 1000).1 =
      Except.ok [c10ProvA, c10ProvB] ∧
    (getSortedProviders [c10ProvA, c10ProvB] (getStats c10Tracker).2 c10CBs 1000).1 =
      Except.ok [c10ProvB, c10ProvA] ∧
    (1 : ℚ) ≠ 6/5 := by
  refine ⟨?_, ?_, ?_, ?_, ?_, ?_, by norm_num⟩ <;>
    norm_num [c10Tracker, c10ProvA, c10ProvB, c10CBs, computeDynamicScore,
      getSortedProviders, getStats, enrich, recordUsage, initTracker, initCB, lookupD,
      updateEntry, emptyStats, canAttempt, sortByScore, insertByScore, round4, pyRound,
      roundHalfEven, List.mapM, List.mapM.loop, Except.map, str_a_ne_b, str_b_ne_a,
      Bind.bind, Except.bind, Functor.map, Pure.pure, Except.pure]

/-- Provider \"a\" (cost 1), the only configured provider in the C8
state. -/
def c8Provider : Provider :=
  { name := "a", type := "mistral", cost_per_1k_tokens := 1,
    prompt_cost_per_1k_tokens := none, completion_cost_per_1k_tokens := none }

/-- One failed attempt recorded for \"a\". -/
def c8FailedOnce : CostTracker :=
  recordUsage { provider_name := "a", prompt_tokens := 0, completion_tokens := 0,
                cost := 0, success := false, duration := 0 } initTracker

/-- The tracker after `get_stats()` has been called: the stats entry of
\"a\" now holds the \"N/A\" sentinel. -/
def c8Tracker : CostTracker := (getStats c8FailedOnce).2

/-- The breaker of \"a\" after its one recorded failure: still closed and
admitting attempts. -/
def c8Breaker : CircuitBreaker := recordFailure 0 initCB

/-- The router state in which C8 is refuted. -/
def c8State : RouterState :=
  { circuit_breakers := [("a", c8Breaker)], cost_tracker := c8Tracker }

/-- An upstream oracle on which every provider call succeeds. -/
def c8Oracle : Provider → Except String NormResp :=
  fun _ => Except.ok { text := JVal.jstr "hello", prompt_tokens := 7,
                       completion_tokens := 3, total_tokens := 10 }

/-- C8.  In the state where provider \"a\" recorded one failure and
`stats()` was then called (writing the \"N/A\" sentinel), the breaker still
admits \"a\" and the upstream call would succeed, yet `generate` neither
returns the successful response nor raises one of the claimed terminal
errors: the `sorted(..., key=_compute_dynamic_score)` call inside
`_get_sorted_providers` evaluates the score of \"a\" and raises the
`TypeError` from comparing \"N/A\" with 5.  This propagates as a plain
Python error (HTTP 500 with the TypeError message), contradicting the
claimed trichotomy. -/
theorem c8_generate_typeerror_despite_healthy_provider :
    (canAttempt 1000 c8Breaker).1 = true ∧
    c8Oracle c8Provider = Except.ok { text := JVal.jstr "hello", prompt_tokens := 7,
                                      completion_tokens := 3, total_tokens := 10 } ∧
    (generate [c8Provider] c8Oracle 1000 c8State).1 =
      Except.error (GenError.pyError "TypeError: str and int are not orderable") := by
  refine ⟨?_, rfl, ?_⟩
  · norm_num [canAttempt, c8Breaker, recordFailure, initCB, List.filter_cons]
  · norm_num [generate, getSortedProviders, computeDynamicScore, canAttempt, getStats,
      enrich, recordUsage, recordFailure, initCB, initTracker, lookupD, updateEntry,
      emptyStats, c8Provider, c8FailedOnce, c8Tracker, c8Breaker, c8State, c8Oracle, List.filter_cons,
      List.mapM, List.mapM.loop, Bind.bind, Except.bind, Functor.map, Except.map,
      Pure.pure, Except.pure, sortByScore, insertByScore]

/-- A well-formed Mistral 200 response whose message content is the empty
string. -/
def mistralEmptyResult : JVal :=
  JVal.jobj [("choices", JVal.jarr [JVal.jobj [("message",
      JVal.jobj [("content", JVal.jstr "")])]]),
    ("usage", JVal.jobj [("prompt_tokens", JVal.jnum 1), ("completion_tokens", JVal.jnum 2),
      ("total_tokens", JVal.jnum 3)])]

/-- C9, counterexample.  The Mistral adapter performs no emptiness check on
`choices[0].message.content`: on an upstream response with empty content it
returns successfully with an empty (falsy) `text` field, refuting the claim
that every adapter's success carries non-empty text.  (The DeepSeek variant
parses `content` identically.) -/
theorem c9_mistral_empty_text_success :
    mistralParse mistralEmptyResult =
      Except.ok { text := JVal.jstr "", prompt_tokens := 1, completion_tokens := 2,
                  total_tokens := 3 } ∧
    (JVal.jstr "").truthy = false := by
  constructor
  · rfl
  · rfl

/-- C9, amended.  Only the Google Gemini adapter guards its output
(`if not text: raise`): whenever `geminiParse` succeeds, the returned text
is truthy — in particular not the empty string.  The Mistral and DeepSeek
variants return the upstream content verbatim, which may be empty. -/
theorem c9_gemini_success_text_truthy (j : JVal) (r : NormResp) (h : geminiParse j = Except.ok r) :
    r.text.truthy = true := by
  simp only [geminiParse, Bind.bind, Except.bind, Pure.pure, Except.pure] at h
  repeat' split at h
  all_goals try simp_all
  subst h
  assumption

/-- A well-formed Gemini 200 response carrying the text \"hi\". -/
def geminiOkResult : JVal :=
  JVal.jobj [("candidates", JVal.jarr [JVal.jobj [("content", JVal.jobj [("parts",
      JVal.jarr [JVal.jobj [("text", JVal.jstr "hi")]])])]]),
    ("usageMetadata", JVal.jobj [("promptTokenCount", JVal.jnum 4),
      ("candidatesTokenCount", JVal.jnum 5)])]

/-- Witness for C9: the Gemini adapter succeeds on `geminiOkResult` and the
returned text is truthy. -/
theorem c9_gemini_success_text_truthy_witness : (JVal.jstr "hi").truthy = true :=
  c9_gemini_success_text_truthy geminiOkResult
    { text := JVal.jstr "hi", prompt_tokens := 4, completion_tokens := 5, total_tokens := 9 }
    (by simp [geminiOkResult, geminiParse, jin, jget, jgetD, jindex, asNum, lookupD,
      JVal.truthy, Bind.bind, Except.bind, Pure.pure, Except.pure]
        norm_num)
